import Mathlib

/-!
Shallow embedding of the rules/legality core of the mtga-coach repository
(src/parser/events.py, src/state/player_state.py, src/state/game_state.py,
src/rules/mana_system.py, src/rules/timing_rules.py,
src/rules/card_restrictions.py, src/rules/legality_engine.py), together with
theorems settling the specification claims about that core.

Python `int` is modelled as `Int` (counters that the code only ever increments
from zero are `Nat`), mutable objects as explicit state passing, Python `set`
as a duplicate-free list used only through membership / insert / clear, and a
caught exception as the observable effect it leaves behind (documented at each
such definition).
-/

namespace Mtga

/-- Game phases (`Phase` in src/parser/events.py).  Note the enum member for
the end-of-combat step is named `COMBAT_END`; no member `END_COMBAT` exists. -/
inductive Phase where
  | untap
  | upkeep
  | draw
  | first_main
  | combat_begin
  | declare_attackers
  | declare_blockers
  | combat_damage
  | combat_end
  | second_main
  | end_step
  | cleanup
deriving Repr, DecidableEq

/-- Game status (`GameStatus` in src/state/game_state.py). -/
inductive GameStatus where
  | waiting
  | starting
  | active
  | ended
  | paused
deriving Repr, DecidableEq

/-- Card types (`CardType` in src/parser/events.py). -/
inductive CardType where
  | creature
  | instant
  | sorcery
  | enchantment
  | artifact
  | planeswalker
  | land
deriving Repr, DecidableEq

/-- Zone types (`ZoneType` in src/parser/events.py). -/
inductive ZoneType where
  | battlefield
  | hand
  | graveyard
  | library
  | exile
  | stack
  | command
deriving Repr, DecidableEq

/-- Player types (`PlayerType` in src/state/player_state.py). -/
inductive PlayerType where
  | self
  | opponent
deriving Repr, DecidableEq

/-- Card data (`CardInfo` in src/parser/events.py): exactly the fields the
pydantic model declares (the `counters` dict and timestamps are omitted:
nothing modelled here reads them).  Note there is no `type_line` field, even
though src/rules/legality_engine.py, src/rules/card_restrictions.py and the
repository's tests read (and the tests construct) `card.type_line`: pydantic
ignores undeclared constructor kwargs by default, so no card ever carries
the value and every such read raises `AttributeError`
(see `CardInfo.typeLineAttr`). -/
structure CardInfo where
  instance_id : Int
  grp_id : Int
  name : String
  mana_cost : String := ""
  cmc : Int := 0
  power : Option Int := none
  toughness : Option Int := none
  card_types : List CardType := []
  colors : List String := []
  abilities : List String := []
  keywords : List String := []
  controller : Int
  zone_id : Int
  zone_type : Option ZoneType := none
  visibility : String := "visible"
deriving Repr, DecidableEq

/-- The attribute read `card.type_line`: `CardInfo` declares no such field
and pydantic drops the extra kwarg the tests pass, so the read raises
`AttributeError` on every card — modelled as the absent attribute. -/
def CardInfo.typeLineAttr (_card : CardInfo) : Option String := none

/-- Mana pool (`ManaPool` in src/state/player_state.py): six integer counters. -/
structure ManaPool where
  white : Int := 0
  blue : Int := 0
  black : Int := 0
  red : Int := 0
  green : Int := 0
  colorless : Int := 0
deriving Repr, DecidableEq

/-- `ManaPool.total_mana`. -/
def ManaPool.totalMana (mp : ManaPool) : Int :=
  mp.white + mp.blue + mp.black + mp.red + mp.green + mp.colorless

/-- Hand (`Hand` in src/state/player_state.py). -/
structure Hand where
  cards : List CardInfo := []
  max_size : Nat := 7
deriving Repr, DecidableEq

/-- `Hand.add_card`: append if below `max_size`, else reject. -/
def Hand.addCard (h : Hand) (card : CardInfo) : Hand × Bool :=
  if h.cards.length < h.max_size then
    ({ h with cards := h.cards ++ [card] }, true)
  else
    (h, false)

/-- Helper for `Hand.remove_card`: pop the first list entry with the given
instance id, returning it and the remaining list. -/
def removeFirstById : List CardInfo → Int → Option CardInfo × List CardInfo
  | [], _ => (none, [])
  | c :: rest, iid =>
    if c.instance_id = iid then (some c, rest)
    else
      let (r, rest2) := removeFirstById rest iid
      (r, c :: rest2)

/-- `Hand.remove_card`. -/
def Hand.removeCard (h : Hand) (iid : Int) : Option CardInfo × Hand :=
  let (r, rest) := removeFirstById h.cards iid
  (r, { h with cards := rest })

/-- `Hand.get_card`: first card in hand with the given instance id. -/
def Hand.getCard (h : Hand) (iid : Int) : Option CardInfo :=
  h.cards.find? (fun c => c.instance_id == iid)

/-- Battlefield (`Battlefield` in src/state/player_state.py), partitioned into
six category lists. -/
structure Battlefield where
  creatures : List CardInfo := []
  lands : List CardInfo := []
  artifacts : List CardInfo := []
  enchantments : List CardInfo := []
  planeswalkers : List CardInfo := []
  other : List CardInfo := []
deriving Repr, DecidableEq

/-- `Battlefield.add_card`: the category is chosen by the first matching card
type in the source's `elif` chain. -/
def Battlefield.addCard (bf : Battlefield) (card : CardInfo) : Battlefield :=
  if card.card_types.contains CardType.creature then
    { bf with creatures := bf.creatures ++ [card] }
  else if card.card_types.contains CardType.land then
    { bf with lands := bf.lands ++ [card] }
  else if card.card_types.contains CardType.artifact then
    { bf with artifacts := bf.artifacts ++ [card] }
  else if card.card_types.contains CardType.enchantment then
    { bf with enchantments := bf.enchantments ++ [card] }
  else if card.card_types.contains CardType.planeswalker then
    { bf with planeswalkers := bf.planeswalkers ++ [card] }
  else
    { bf with other := bf.other ++ [card] }

/-- `Battlefield.get_all_cards`: concatenation in the source's category order. -/
def Battlefield.getAllCards (bf : Battlefield) : List CardInfo :=
  bf.creatures ++ bf.lands ++ bf.artifacts ++ bf.enchantments ++
    bf.planeswalkers ++ bf.other

/-- `Battlefield.get_card`: the source searches the categories in the same
order as `get_all_cards` concatenates them, so the first match coincides. -/
def Battlefield.getCard (bf : Battlefield) (iid : Int) : Option CardInfo :=
  bf.getAllCards.find? (fun c => c.instance_id == iid)

/-- Player state (`PlayerState` in src/state/player_state.py).  The
commander-specific counters are omitted: nothing modelled here reads them. -/
structure PlayerState where
  player_id : Int
  player_type : PlayerType
  life_total : Int := 20
  max_hand_size : Nat := 7
  hand : Hand := {}
  battlefield : Battlefield := {}
  graveyard : List CardInfo := []
  mana_pool : ManaPool := {}
  has_played_land_this_turn : Bool := false
  has_attacked_this_turn : Bool := false
  has_used_ability_this_turn : List String := []
  poison_counters : Int := 0
  energy_counters : Int := 0
  experience_counters : Int := 0
deriving Repr, DecidableEq

/-- `PlayerState.can_play_land`. -/
def PlayerState.canPlayLand (p : PlayerState) : Bool :=
  !p.has_played_land_this_turn

/-- `PlayerState.can_attack`. -/
def PlayerState.canAttack (p : PlayerState) : Bool :=
  !p.has_attacked_this_turn

/-- `PlayerState.can_use_ability`. -/
def PlayerState.canUseAbility (p : PlayerState) (ability : String) : Bool :=
  !(p.has_used_ability_this_turn.contains ability)

/-- `PlayerState.reset_turn_flags`. -/
def PlayerState.resetTurnFlags (p : PlayerState) : PlayerState :=
  { p with has_played_land_this_turn := false
           has_attacked_this_turn := false
           has_used_ability_this_turn := [] }

/-- `PlayerState.is_alive`. -/
def PlayerState.isAlive (p : PlayerState) : Bool :=
  decide (p.life_total > 0)

/-- `PlayerState.take_damage`: returns the updated player and the actual
damage dealt. -/
def PlayerState.takeDamage (p : PlayerState) (amount : Int) : PlayerState × Int :=
  if amount ≤ 0 then (p, 0)
  else
    let actual := min amount p.life_total
    ({ p with life_total := max 0 (p.life_total - amount) }, actual)

/-- `PlayerState.gain_life`. -/
def PlayerState.gainLife (p : PlayerState) (amount : Int) : PlayerState × Int :=
  if amount ≤ 0 then (p, 0)
  else ({ p with life_total := p.life_total + amount }, amount)

/-! ## Mana cost grammar (`ManaCost` in src/rules/mana_system.py)

Cost symbols are the character sequences found between `{` and `}`; they are
kept as `List Char`.  The original object also stores the raw `cost_string`
attribute; only the parsed component fields are modelled. -/

/-- Python `str.isdigit` on the ASCII symbols the grammar deals with: nonempty
and all digits. -/
def isDigits (l : List Char) : Bool :=
  !l.isEmpty && l.all (fun c => c.isDigit)

/-- Python `int(...)` on a digit string. -/
def digitsToNat (l : List Char) : Nat :=
  l.foldl (fun a c => 10 * a + (c.toNat - 48)) 0

/-- Python `symbol.split('/')`. -/
def splitOnChar (sep : Char) : List Char → List (List Char)
  | [] => [[]]
  | c :: rest =>
    let r := splitOnChar sep rest
    if c = sep then [] :: r
    else
      match r with
      | h :: t => (c :: h) :: t
      | [] => [[c]]

/-- The symbol extraction `re.findall(r'\x7b[^}]+\x7d', cost)` in
`ManaCost._parse_cost`: scan left to right; at a `{`, the maximal nonempty run
of non-`}` characters followed by a `}` is a match (its inner text is
returned) and scanning resumes after the match; otherwise scanning advances.
The fuel argument (instantiated with the input length) only serves
termination: every recursive call consumes at least one character. -/
def findSymbolsAux : Nat → List Char → List (List Char)
  | 0, _ => []
  | _ + 1, [] => []
  | fuel + 1, c :: rest =>
    if c = '{' then
      match rest.dropWhile (fun x => x != '}') with
      | '}' :: rest2 =>
        let content := rest.takeWhile (fun x => x != '}')
        if content.isEmpty then findSymbolsAux fuel rest
        else content :: findSymbolsAux fuel rest2
      | _ => findSymbolsAux fuel rest
    else findSymbolsAux fuel rest

/-- Parsed mana cost: the component fields of `ManaCost`. -/
structure ManaCost where
  white : Nat := 0
  blue : Nat := 0
  black : Nat := 0
  red : Nat := 0
  green : Nat := 0
  colorless : Nat := 0
  generic : Nat := 0
  hybrid : List (List Char) := []
  phyrexian : List (List Char) := []
  snow : Nat := 0
  energy : Nat := 0
  life : Nat := 0
deriving Repr, DecidableEq

/-- One iteration of the symbol loop in `ManaCost._parse_cost`: the `if`/`elif`
chain over the symbol's inner text.  A symbol matching no branch falls through
and leaves the cost unchanged. -/
def ManaCost.parseSymbol (mc : ManaCost) (sym : List Char) : ManaCost :=
  if sym = ['W'] then { mc with white := mc.white + 1 }
  else if sym = ['U'] then { mc with blue := mc.blue + 1 }
  else if sym = ['B'] then { mc with black := mc.black + 1 }
  else if sym = ['R'] then { mc with red := mc.red + 1 }
  else if sym = ['G'] then { mc with green := mc.green + 1 }
  else if sym = ['C'] then { mc with colorless := mc.colorless + 1 }
  else if isDigits sym then { mc with generic := mc.generic + digitsToNat sym }
  else if sym.contains '/' then { mc with hybrid := mc.hybrid ++ [sym] }
  else if sym.contains 'P' then { mc with phyrexian := mc.phyrexian ++ [sym] }
  else if sym.contains 'S' then { mc with snow := mc.snow + 1 }
  else if sym.contains 'E' then { mc with energy := mc.energy + 1 }
  else if sym.contains 'L' then { mc with life := mc.life + 1 }
  else mc

/-- `cost.replace(' ', '').upper()` in `ManaCost._parse_cost`. -/
def cleanCost (s : String) : List Char :=
  (s.data.filter (fun c => c != ' ')).map Char.toUpper

/-- Fold of `ManaCost.parseSymbol` over a symbol list. -/
def ManaCost.parseSymbols (syms : List (List Char)) : ManaCost :=
  syms.foldl ManaCost.parseSymbol {}

/-- `ManaCost.__init__` / `_parse_cost`: an empty expression parses to the zero
cost; otherwise the symbols of the cleaned string are folded into the cost. -/
def ManaCost.parse (s : String) : ManaCost :=
  if s = "" then {}
  else
    let chars := cleanCost s
    ManaCost.parseSymbols (findSymbolsAux chars.length chars)

/-- `ManaCost.get_total_cost`. -/
def ManaCost.getTotalCost (mc : ManaCost) : Nat :=
  mc.white + mc.blue + mc.black + mc.red + mc.green + mc.colorless +
    mc.generic + mc.hybrid.length + mc.phyrexian.length + mc.snow

/-! ## Mana system (`ManaSystem` in src/rules/mana_system.py)

Payment methods mutate the player in place and return a boolean; they are
modelled as functions returning `Bool × PlayerState` (or `Bool × ManaPool`),
where the returned state is the possibly partially mutated one. -/

namespace ManaSystem

/-- `ManaSystem._can_pay_mana_symbol`. -/
def canPayManaSymbol (sym : List Char) (mp : ManaPool) : Bool :=
  if sym = ['W'] then decide (mp.white > 0)
  else if sym = ['U'] then decide (mp.blue > 0)
  else if sym = ['B'] then decide (mp.black > 0)
  else if sym = ['R'] then decide (mp.red > 0)
  else if sym = ['G'] then decide (mp.green > 0)
  else if sym = ['C'] then decide (mp.colorless > 0)
  else if isDigits sym then decide (mp.totalMana ≥ (digitsToNat sym : Int))
  else false

/-- `ManaSystem._can_pay_basic_mana`: each colored requirement against its
counter, then the generic requirement against what the pool has left. -/
def canPayBasicMana (cost : ManaCost) (p : PlayerState) : Bool :=
  let mp := p.mana_pool
  decide (mp.white ≥ (cost.white : Int)) &&
  decide (mp.blue ≥ (cost.blue : Int)) &&
  decide (mp.black ≥ (cost.black : Int)) &&
  decide (mp.red ≥ (cost.red : Int)) &&
  decide (mp.green ≥ (cost.green : Int)) &&
  decide (mp.colorless ≥ (cost.colorless : Int)) &&
  decide (mp.totalMana -
      ((cost.white : Int) + (cost.blue : Int) + (cost.black : Int) +
        (cost.red : Int) + (cost.green : Int) + (cost.colorless : Int)) ≥
    (cost.generic : Int))

/-- `ManaSystem._can_pay_hybrid_symbol`: some option of the symbol is payable.
A symbol without `/` is rejected. -/
def canPayHybridSymbol (sym : List Char) (mp : ManaPool) : Bool :=
  if !(sym.contains '/') then false
  else (splitOnChar '/' sym).any (fun o => canPayManaSymbol o mp)

/-- `ManaSystem._can_pay_hybrid_mana`. -/
def canPayHybridMana (cost : ManaCost) (p : PlayerState) : Bool :=
  cost.hybrid.all (fun h => canPayHybridSymbol h p.mana_pool)

/-- `ManaSystem._can_pay_phyrexian_symbol`: payable with 2 life, or with the
mana of the symbol's color (the color letters are what remains after removing
every `P`). -/
def canPayPhyrexianSymbol (sym : List Char) (p : PlayerState) : Bool :=
  if sym.contains 'P' then
    if decide (p.life_total ≥ 2) then true
    else
      let color := sym.filter (fun c => c != 'P')
      if color = ['W'] then decide (p.mana_pool.white > 0)
      else if color = ['U'] then decide (p.mana_pool.blue > 0)
      else if color = ['B'] then decide (p.mana_pool.black > 0)
      else if color = ['R'] then decide (p.mana_pool.red > 0)
      else if color = ['G'] then decide (p.mana_pool.green > 0)
      else if color = ['C'] then decide (p.mana_pool.colorless > 0)
      else false
  else false

/-- `ManaSystem._can_pay_phyrexian_mana`. -/
def canPayPhyrexianMana (cost : ManaCost) (p : PlayerState) : Bool :=
  cost.phyrexian.all (fun s => canPayPhyrexianSymbol s p)

/-- `ManaSystem._can_pay_snow_mana`: the simplified check `cost.snow == 0`
(no snow-source tracking). -/
def canPaySnowMana (cost : ManaCost) (_p : PlayerState) : Bool :=
  cost.snow == 0

/-- `ManaSystem._can_pay_energy`. -/
def canPayEnergy (cost : ManaCost) (p : PlayerState) : Bool :=
  decide (p.energy_counters ≥ (cost.energy : Int))

/-- `ManaSystem._can_pay_life`. -/
def canPayLife (cost : ManaCost) (p : PlayerState) : Bool :=
  decide (p.life_total ≥ (cost.life : Int))

/-- `ManaSystem._can_pay_mana_cost`: the sequence of early-return checks. -/
def canPayManaCost (cost : ManaCost) (p : PlayerState) : Bool :=
  canPayBasicMana cost p &&
  canPayHybridMana cost p &&
  canPayPhyrexianMana cost p &&
  canPaySnowMana cost p &&
  canPayEnergy cost p &&
  canPayLife cost p

/-- `ManaSystem.can_pay_cost`: an empty cost string is payable; otherwise the
parsed cost is checked.  (The defensive `try/except` never fires: parsing is
total.) -/
def canPayCost (cost_string : String) (p : PlayerState) : Bool :=
  if cost_string = "" then true
  else canPayManaCost (ManaCost.parse cost_string) p

/-- The generic-payment loop of `ManaSystem._pay_basic_mana` (also the digit
branch of `_pay_mana_symbol`): debit one mana per iteration from the first
non-zero counter in the order white, blue, black, red, green, colorless;
fail, leaving the partially debited pool, when all counters are empty. -/
def payGenericLoop : Nat → ManaPool → Bool × ManaPool
  | 0, mp => (true, mp)
  | n + 1, mp =>
    if decide (mp.white > 0) then payGenericLoop n { mp with white := mp.white - 1 }
    else if decide (mp.blue > 0) then payGenericLoop n { mp with blue := mp.blue - 1 }
    else if decide (mp.black > 0) then payGenericLoop n { mp with black := mp.black - 1 }
    else if decide (mp.red > 0) then payGenericLoop n { mp with red := mp.red - 1 }
    else if decide (mp.green > 0) then payGenericLoop n { mp with green := mp.green - 1 }
    else if decide (mp.colorless > 0) then payGenericLoop n { mp with colorless := mp.colorless - 1 }
    else (false, mp)

/-- `ManaSystem._pay_basic_mana`: unconditionally debit the colored costs,
then run the generic loop. -/
def payBasicMana (cost : ManaCost) (p : PlayerState) : Bool × PlayerState :=
  let mp := p.mana_pool
  let mp := { mp with white := mp.white - cost.white
                      blue := mp.blue - cost.blue
                      black := mp.black - cost.black
                      red := mp.red - cost.red
                      green := mp.green - cost.green
                      colorless := mp.colorless - cost.colorless }
  let (ok, mp) := payGenericLoop cost.generic mp
  (ok, { p with mana_pool := mp })

/-- `ManaSystem._pay_mana_symbol`: single letters debit one counter (always
reporting success); a digit symbol runs the greedy loop for its value; any
other symbol fails. -/
def payManaSymbol (sym : List Char) (mp : ManaPool) : Bool × ManaPool :=
  if sym = ['W'] then (true, { mp with white := mp.white - 1 })
  else if sym = ['U'] then (true, { mp with blue := mp.blue - 1 })
  else if sym = ['B'] then (true, { mp with black := mp.black - 1 })
  else if sym = ['R'] then (true, { mp with red := mp.red - 1 })
  else if sym = ['G'] then (true, { mp with green := mp.green - 1 })
  else if sym = ['C'] then (true, { mp with colorless := mp.colorless - 1 })
  else if isDigits sym then payGenericLoop (digitsToNat sym) mp
  else (false, mp)

/-- The option loop of `ManaSystem._pay_hybrid_symbol`: pay with the first
option whose `_can_pay_mana_symbol` check passes; fail if none passes. -/
def payFirstOption : List (List Char) → ManaPool → Bool × ManaPool
  | [], mp => (false, mp)
  | o :: rest, mp =>
    if canPayManaSymbol o mp then payManaSymbol o mp
    else payFirstOption rest mp

/-- `ManaSystem._pay_hybrid_symbol`. -/
def payHybridSymbol (sym : List Char) (p : PlayerState) : Bool × PlayerState :=
  let (ok, mp) := payFirstOption (splitOnChar '/' sym) p.mana_pool
  (ok, { p with mana_pool := mp })

/-- `ManaSystem._pay_hybrid_mana`: pay the hybrid symbols in order, stopping
at (and keeping the mutations of) the first failure. -/
def payHybridList : List (List Char) → PlayerState → Bool × PlayerState
  | [], p => (true, p)
  | h :: rest, p =>
    match payHybridSymbol h p with
    | (true, p1) => payHybridList rest p1
    | (false, p1) => (false, p1)

/-- `ManaSystem._pay_phyrexian_symbol`: try the mana option first, else pay 2
life. -/
def payPhyrexianSymbol (sym : List Char) (p : PlayerState) : Bool × PlayerState :=
  if sym.contains 'P' then
    let color := sym.filter (fun c => c != 'P')
    if canPayManaSymbol color p.mana_pool then
      let (ok, mp) := payManaSymbol color p.mana_pool
      (ok, { p with mana_pool := mp })
    else if decide (p.life_total ≥ 2) then
      (true, (p.takeDamage 2).1)
    else (false, p)
  else (false, p)

/-- `ManaSystem._pay_phyrexian_mana`. -/
def payPhyrexianList : List (List Char) → PlayerState → Bool × PlayerState
  | [], p => (true, p)
  | s :: rest, p =>
    match payPhyrexianSymbol s p with
    | (true, p1) => payPhyrexianList rest p1
    | (false, p1) => (false, p1)

/-- `ManaSystem._pay_snow_mana`: the simplified check `cost.snow == 0`,
without mutation. -/
def paySnowMana (cost : ManaCost) (_p : PlayerState) : Bool :=
  cost.snow == 0

/-- `ManaSystem._pay_energy`. -/
def payEnergy (cost : ManaCost) (p : PlayerState) : Bool × PlayerState :=
  if decide (p.energy_counters ≥ (cost.energy : Int)) then
    (true, { p with energy_counters := p.energy_counters - cost.energy })
  else (false, p)

/-- `ManaSystem._pay_life`: pay through `take_damage`. -/
def payLife (cost : ManaCost) (p : PlayerState) : Bool × PlayerState :=
  if decide (p.life_total ≥ (cost.life : Int)) then
    (true, (p.takeDamage cost.life).1)
  else (false, p)

/-- `ManaSystem._pay_mana_cost`: the sequence of component payments, each an
early return on failure keeping the mutations made so far.
(`_record_mana_spent` touches only the history dict, not the player.) -/
def payManaCost (cost : ManaCost) (p : PlayerState) : Bool × PlayerState :=
  match payBasicMana cost p with
  | (false, p1) => (false, p1)
  | (true, p1) =>
    match payHybridList cost.hybrid p1 with
    | (false, p2) => (false, p2)
    | (true, p2) =>
      match payPhyrexianList cost.phyrexian p2 with
      | (false, p3) => (false, p3)
      | (true, p3) =>
        if !(paySnowMana cost p3) then (false, p3)
        else
          match payEnergy cost p3 with
          | (false, p4) => (false, p4)
          | (true, p4) =>
            match payLife cost p4 with
            | (false, p5) => (false, p5)
            | (true, p5) => (true, p5)

/-- `ManaSystem.pay_cost`: an empty cost string succeeds with no change; a
cost failing `_can_pay_mana_cost` fails with no change; otherwise
`_pay_mana_cost` runs (and its failures keep their partial mutations). -/
def payCost (cost_string : String) (p : PlayerState) : Bool × PlayerState :=
  if cost_string = "" then (true, p)
  else
    let cost := ManaCost.parse cost_string
    if !(canPayManaCost cost p) then (false, p)
    else payManaCost cost p

end ManaSystem

/-! ## Match state (`GameState` in src/state/game_state.py)

The event history, callbacks and timestamps are omitted: nothing modelled
here reads them. -/

/-- Game events, restricted to the constructors whose processing is modelled
(src/parser/events.py; the other event kinds fall into `process_event`'s
catch-all branch, which leaves the state unchanged). -/
inductive GameEvent where
  | draw_card (player : Int) (card : CardInfo)
  | play_card (player : Int) (card : CardInfo)
  | life_change (player : Int) (new_life : Int)
  | phase_change (new_phase : Phase) (new_step : Option String)
  | turn_change (new_turn : Int) (active_player : Option Int)
  | game_end
  | other
deriving Repr

/-- Match state (`GameState`). -/
structure GameState where
  status : GameStatus := .waiting
  turn_number : Int := 0
  current_phase : Option Phase := none
  current_step : Option String := none
  active_player : Option Int := none
  priority_player : Option Int := none
  self_player : Option PlayerState := none
  opponent_player : Option PlayerState := none
  starting_life : Int := 20
  max_hand_size : Nat := 7
  stack : List CardInfo := []
deriving Repr, DecidableEq

/-- `GameState.initialize_game`. -/
def GameState.initializeGame (selfId oppId : Int) (startingLife : Int := 20) :
    GameState :=
  { status := .active
    turn_number := 0
    starting_life := startingLife
    self_player := some { player_id := selfId, player_type := .self,
                          life_total := startingLife }
    opponent_player := some { player_id := oppId, player_type := .opponent,
                              life_total := startingLife } }

/-- `GameState.get_player`: the self player is checked first. -/
def GameState.getPlayer (g : GameState) (pid : Int) : Option PlayerState :=
  match g.self_player with
  | some p => if p.player_id = pid then some p else
      match g.opponent_player with
      | some q => if q.player_id = pid then some q else none
      | none => none
  | none =>
      match g.opponent_player with
      | some q => if q.player_id = pid then some q else none
      | none => none

/-- In-place mutation of the player object returned by `get_player`, modelled
as writing back through the same lookup order. -/
def GameState.updatePlayer (g : GameState) (pid : Int)
    (f : PlayerState → PlayerState) : GameState :=
  match g.self_player with
  | some p =>
      if p.player_id = pid then { g with self_player := some (f p) }
      else
        match g.opponent_player with
        | some q =>
            if q.player_id = pid then { g with opponent_player := some (f q) }
            else g
        | none => g
  | none =>
      match g.opponent_player with
      | some q =>
          if q.player_id = pid then { g with opponent_player := some (f q) }
          else g
      | none => g

/-- `GameState.is_game_active`. -/
def GameState.isGameActive (g : GameState) : Bool :=
  g.status == .active

/-- `GameState.set_phase`. -/
def GameState.setPhase (g : GameState) (phase : Phase)
    (step : Option String := none) : GameState :=
  { g with current_phase := some phase, current_step := step }

/-- `GameState.next_turn`: increment the turn counter and reset both players'
turn flags. -/
def GameState.nextTurn (g : GameState) : GameState :=
  { g with turn_number := g.turn_number + 1
           self_player := g.self_player.map PlayerState.resetTurnFlags
           opponent_player := g.opponent_player.map PlayerState.resetTurnFlags }

/-- `GameState._process_draw_card`: add the card to the player's hand (the
add is a no-op when the hand is at `max_size`). -/
def GameState.processDrawCard (g : GameState) (player : Int) (card : CardInfo) :
    GameState :=
  g.updatePlayer player (fun p => { p with hand := (p.hand.addCard card).1 })

/-- `GameState._process_play_card`: remove the card from the hand by instance
id and, when it was found, add it to the battlefield (with no restriction
check) and set the land flag for lands. -/
def GameState.processPlayCard (g : GameState) (player : Int) (card : CardInfo) :
    GameState :=
  g.updatePlayer player (fun p =>
    match p.hand.removeCard card.instance_id with
    | (some _, hand1) =>
        let p := { p with hand := hand1,
                          battlefield := p.battlefield.addCard card }
        if card.card_types.contains CardType.land then
          { p with has_played_land_this_turn := true }
        else p
    | (none, _) => p)

/-- `GameState._process_life_change`. -/
def GameState.processLifeChange (g : GameState) (player : Int) (newLife : Int) :
    GameState :=
  g.updatePlayer player (fun p => { p with life_total := newLife })

/-- `GameState.process_event` over the modelled event constructors. -/
def GameState.processEvent (g : GameState) : GameEvent → GameState
  | .draw_card player card => g.processDrawCard player card
  | .play_card player card => g.processPlayCard player card
  | .life_change player newLife => g.processLifeChange player newLife
  | .phase_change newPhase newStep => g.setPhase newPhase newStep
  | .turn_change newTurn active =>
      let g := { g with turn_number := newTurn }
      match active with
      | some pid => if (g.getPlayer pid).isSome
          then { g with active_player := some pid } else g
      | none => g
  | .game_end => { g with status := .ended }
  | .other => g

/-! ## Priority protocol and phase machine (`TimingRules` in
src/rules/timing_rules.py) -/

/-- The mutable timing state: the game state reference plus the
`priority_passed` set (a Python `set`, modelled as a duplicate-free list used
through membership, insert and clear). -/
structure TimingRules where
  game : GameState
  priority_passed : List Int := []
deriving Repr

namespace TimingRules

/-- `set.add` on the pass set. -/
def insertPass (pid : Int) (s : List Int) : List Int :=
  if s.contains pid then s else s ++ [pid]

/-- The registered player-id list built at the top of
`_all_players_passed_priority` and `_move_to_next_player`: self first, then
opponent, skipping absent players. -/
def registeredIds (g : GameState) : List Int :=
  (match g.self_player with | some p => [p.player_id] | none => []) ++
  (match g.opponent_player with | some p => [p.player_id] | none => [])

/-- `TimingRules._player_has_priority`: the active player and the recorded
priority player are reported as having priority before the pass set is ever
consulted; only other players are rejected for having passed. -/
def playerHasPriority (tr : TimingRules) (pid : Int) : Bool :=
  if tr.game.active_player == some pid then true
  else if tr.game.priority_player == some pid then true
  else if tr.priority_passed.contains pid then false
  else true

/-- `TimingRules._all_players_passed_priority`. -/
def allPlayersPassed (g : GameState) (passed : List Int) : Bool :=
  (registeredIds g).all (fun pid => passed.contains pid)

/-- `TimingRules._move_to_next_player`: rotate `priority_player` to the next
registered id after the current holder (`priority_player`, defaulting to
`active_player`; index 0 when the holder is unset or unregistered).  With no
registered players the index computation raises `ZeroDivisionError`, which
the method's handler swallows, leaving the state unchanged. -/
def moveToNextPlayer (g : GameState) : GameState :=
  let players := registeredIds g
  if players.isEmpty then g
  else
    let current : Option Int :=
      match g.priority_player with
      | some c => some c
      | none => g.active_player
    let idx : Nat :=
      match current with
      | some c => if players.contains c then players.indexOf c else 0
      | none => 0
    let next := players.getD ((idx + 1) % players.length) 0
    { g with priority_player := some next }

/-- `TimingRules._advance_phase`: the `if`/`elif` chain over the current
phase.  The branches for `COMBAT_DAMAGE` and everything after it evaluate the
nonexistent enum member `Phase.END_COMBAT`, raising `AttributeError`, which
the method's `except` handler swallows — so from `combat_damage` onward
(including `cleanup`, whose `_end_turn` is therefore never reached) the state
is left unchanged. -/
def advancePhase (g : GameState) : GameState :=
  match g.current_phase with
  | some .untap => g.setPhase .upkeep
  | some .upkeep => g.setPhase .draw
  | some .draw => g.setPhase .first_main
  | some .first_main => g.setPhase .combat_begin
  | some .combat_begin => g.setPhase .declare_attackers
  | some .declare_attackers => g.setPhase .declare_blockers
  | some .declare_blockers => g.setPhase .combat_damage
  | _ => g

/-- `TimingRules.pass_priority`: add the caller to the pass set; if every
registered player has then passed, clear the set and advance the phase
(`_resolve_priority`); otherwise rotate priority to the next player. -/
def passPriority (tr : TimingRules) (pid : Int) : TimingRules :=
  let passed := insertPass pid tr.priority_passed
  if allPlayersPassed tr.game passed then
    { game := advancePhase tr.game, priority_passed := [] }
  else
    { game := moveToNextPlayer tr.game, priority_passed := passed }

end TimingRules

/-! ## Card restrictions (`CardRestrictionEngine` in
src/rules/card_restrictions.py) -/

/-- Whether `needle` occurs as a prefix of `hay` (helper for substring
search). -/
def matchesAt : List Char → List Char → Bool
  | [], _ => true
  | _ :: _, [] => false
  | a :: as, b :: bs => a == b && matchesAt as bs

/-- Python `needle in hay` on strings: substring occurrence. -/
def containsSub (needle : List Char) : List Char → Bool
  | [] => needle.isEmpty
  | c :: rest => matchesAt needle (c :: rest) || containsSub needle rest

/-- Python `str.lower` on the ASCII strings involved. -/
def strLower (s : String) : List Char :=
  s.data.map Char.toLower

namespace CardRestrictionEngine

/-- `CardRestrictionEngine._is_legendary`: `'legendary' in
card.type_line.lower()`.  The `type_line` read raises `AttributeError` on
every card (the field is undeclared), so the substring test is never
reached: the result is always the exception (`none`). -/
def isLegendary (card : CardInfo) : Option Bool :=
  card.typeLineAttr.map (fun tl => containsSub "legendary".data (strLower tl))

/-- `CardRestrictionEngine._can_play_legendary`: the loop condition
`battlefield_card.name == card.name and self._is_legendary(battlefield_card)`
short-circuits, so `_is_legendary` is evaluated (and raises) only when some
battlefield card shares the name; with no same-named card the loop completes
and the method returns True. -/
def canPlayLegendary (card : CardInfo) (player : PlayerState) : Option Bool :=
  if player.battlefield.getAllCards.any (fun b => b.name == card.name) then
    none
  else some true

/-- `CardRestrictionEngine._can_play_planeswalker` (reads only `card_types`,
so it raises nothing — but `can_play_card` never reaches it). -/
def canPlayPlaneswalker (card : CardInfo) (player : PlayerState) : Bool :=
  !(player.battlefield.getAllCards.any
      (fun b => b.name == card.name &&
        b.card_types.contains CardType.planeswalker))

/-- `CardRestrictionEngine._check_basic_restrictions`: hand below the
maximum size and the card present in hand. -/
def checkBasicRestrictions (card : CardInfo) (player : PlayerState) : Bool :=
  if decide (player.hand.cards.length ≥ player.max_hand_size) then false
  else if !(player.hand.getCard card.instance_id).isSome then false
  else true

/-- `CardRestrictionEngine._check_card_specific_restrictions`: its first
step evaluates `_is_legendary(card)`, whose `type_line` read raises
`AttributeError` unconditionally, so the legend, planeswalker and land
checks after it are dead code; the result is always the propagated
exception. -/
def checkCardSpecificRestrictions (_card : CardInfo) (_player : PlayerState) :
    Option Bool := none

/-- `CardRestrictionEngine._check_zone_restrictions`. -/
def checkZoneRestrictions (card : CardInfo) (player : PlayerState) : Bool :=
  (card.zone_type == some ZoneType.hand) &&
    (player.hand.getCard card.instance_id).isSome

/-- `CardRestrictionEngine._player_has_priority`: the restriction engine's
simplified check — the player is the active player. -/
def restrictionPlayerHasPriority (g : GameState) (player : PlayerState) :
    Bool :=
  g.active_player == some player.player_id

/-- `CardRestrictionEngine._check_timing_restrictions`: the active-player
check followed by `_player_has_priority` (the same condition again). -/
def checkTimingRestrictions (g : GameState) (player : PlayerState) : Bool :=
  (g.active_player == some player.player_id) &&
    restrictionPlayerHasPriority g player

/-- `CardRestrictionEngine.can_play_card`: basic restrictions may reject
first; otherwise `_check_card_specific_restrictions` raises
(`AttributeError` from `_is_legendary`) and the method's `except` handler
returns False, leaving the zone and timing stages dead code — so the result
is False on every input, including the repository's own
`test_can_play_legendary` setup, which asserts it True. -/
def canPlayCard (g : GameState) (card : CardInfo) (player : PlayerState) :
    Bool :=
  if !(checkBasicRestrictions card player) then false
  else
    match checkCardSpecificRestrictions card player with
    | none => false
    | some ok =>
        if !ok then false
        else if !(checkZoneRestrictions card player) then false
        else if !(checkTimingRestrictions g player) then false
        else true

end CardRestrictionEngine

/-! ## Legality engine (`LegalityEngine` in src/rules/legality_engine.py)

Actions (src/rules/action_types.py) are modelled as a sum type carrying the
fields the engine reads; each constructor's `timing` is the fixed
`ActionTiming` its `__init__` assigns.  The mutable `legal`/`reason` fields
are not modelled: `is_action_legal` is the returned boolean. -/

/-- `ActionTiming` (src/rules/action_types.py). -/
inductive ActionTiming where
  | any_time
  | main_phase
  | combat_phase
  | end_step
  | upkeep
  | draw_step
  | declare_attackers
  | declare_blockers
  | combat_damage
  | end_combat
deriving Repr, DecidableEq

/-- The action variants the legality engine generates or validates. -/
inductive Action where
  | playLand (player_id : Int) (card : CardInfo) (land_type : String)
  | castSpell (player_id : Int) (spell : CardInfo) (mana_cost : String)
  | activateAbility (player_id : Int) (source : CardInfo) (ability : String)
  | declareAttackers (player_id : Int) (attackers : List CardInfo)
  | declareBlockers (player_id : Int) (blocks : List (Int × List Int))
  | passPriority (player_id : Int)
  | concede (player_id : Int)
  | drawCard (player_id : Int)
  | scry (player_id : Int)
  | assignDamage (player_id : Int) (source : CardInfo)
deriving Repr, DecidableEq

namespace Action

/-- The `player_id` field every action carries. -/
def playerId : Action → Int
  | playLand pid _ _ => pid
  | castSpell pid _ _ => pid
  | activateAbility pid _ _ => pid
  | declareAttackers pid _ => pid
  | declareBlockers pid _ => pid
  | passPriority pid => pid
  | concede pid => pid
  | drawCard pid => pid
  | scry pid => pid
  | assignDamage pid _ => pid

/-- The `timing` each action class's `__init__` assigns. -/
def timing : Action → ActionTiming
  | playLand _ _ _ => .main_phase
  | castSpell _ _ _ => .any_time
  | activateAbility _ _ _ => .any_time
  | declareAttackers _ _ => .declare_attackers
  | declareBlockers _ _ => .declare_blockers
  | passPriority _ => .any_time
  | concede _ => .any_time
  | drawCard _ => .any_time
  | scry _ => .any_time
  | assignDamage _ _ => .combat_damage

end Action

namespace LegalityEngine

/-- `LegalityEngine._can_pay_mana_cost`: the simplified check — total pool at
least the number of non-brace characters of the cost string. -/
def canPayManaCostSimple (mana_cost : String) (p : PlayerState) : Bool :=
  if mana_cost = "" then true
  else
    let total_cost := (mana_cost.data.filter
      (fun c => c != '{' && c != '}')).length
    decide (p.mana_pool.totalMana ≥ (total_cost : Int))

/-- `LegalityEngine._get_land_type`: `"Basic" in land.type_line` (case
sensitive).  The `type_line` read raises `AttributeError` on every card
(the field is undeclared), so the classification is never reached: the
result is always the exception (`none`). -/
def getLandType (land : CardInfo) : Option String :=
  land.typeLineAttr.map (fun tl =>
    if containsSub "Basic".data tl.data then "basic" else "non-basic")

/-- `LegalityEngine._can_cast_spell`. -/
def canCastSpell (spell : CardInfo) (p : PlayerState) : Bool :=
  !(spell.card_types.contains CardType.land) &&
    canPayManaCostSimple spell.mana_cost p

/-- `LegalityEngine._can_activate_ability`. -/
def canActivateAbility (card : CardInfo) (p : PlayerState) : Bool :=
  p.canUseAbility "general" && !card.abilities.isEmpty

/-- `LegalityEngine._can_draw_card`: permissive stub. -/
def canDrawCard (_p : PlayerState) : Bool := true

/-- `LegalityEngine._can_scry`: stub, always false. -/
def canScry (_p : PlayerState) : Bool := false

/-- `LegalityEngine._generate_main_phase_actions`: when the active player
may still play a land, the loop builds one play-land candidate per land in
hand, each through `_get_land_type` — whose `type_line` read raises
`AttributeError` at the first land, aborting the whole method (`none`).
Otherwise the spell-cast and ability-activation candidates follow. -/
def generateMainPhaseActions (player : PlayerState) (isActive : Bool) :
    Option (List Action) :=
  match (if isActive && player.canPlayLand then
      (player.hand.cards.filter (fun c =>
          c.card_types.contains CardType.land)).mapM (fun land =>
        (getLandType land).map (fun lt =>
          Action.playLand player.player_id land lt))
    else some []) with
  | none => none
  | some landActs =>
      some (landActs ++
        player.hand.cards.filterMap (fun spell =>
          if canCastSpell spell player then
            some (Action.castSpell player.player_id spell spell.mana_cost)
          else none) ++
        player.battlefield.getAllCards.flatMap (fun card =>
          if canActivateAbility card player then
            card.abilities.map (fun a =>
              Action.activateAbility player.player_id card a)
          else []))

/-- `LegalityEngine._generate_combat_phase_actions` (same body as
`_generate_attack_actions`). -/
def generateCombatPhaseActions (player : PlayerState) (isActive : Bool) :
    List Action :=
  if isActive && player.canAttack && !player.battlefield.creatures.isEmpty then
    [Action.declareAttackers player.player_id player.battlefield.creatures]
  else []

/-- `LegalityEngine._generate_block_actions`. -/
def generateBlockActions (player : PlayerState) (isActive : Bool) :
    List Action :=
  if !isActive && !player.battlefield.creatures.isEmpty then
    [Action.declareBlockers player.player_id []]
  else []

/-- `LegalityEngine._generate_damage_actions`: one damage-assignment action
per creature with positive power. -/
def generateDamageActions (player : PlayerState) : List Action :=
  player.battlefield.creatures.filterMap (fun creature =>
    match creature.power with
    | some pw => if pw > 0 then
        some (Action.assignDamage player.player_id creature)
      else none
    | none => none)

/-- `LegalityEngine._generate_always_available_actions`: pass priority and
concede, plus draw (stubbed always-allowed) and scry (stubbed never). -/
def generateAlwaysAvailableActions (player : PlayerState) : List Action :=
  [Action.passPriority player.player_id, Action.concede player.player_id] ++
  (if canDrawCard player then [Action.drawCard player.player_id] else []) ++
  (if canScry player then [Action.scry player.player_id] else [])

/-- `LegalityEngine._validate_basic_requirements`: game active, player
registered, player alive. -/
def validateBasicRequirements (g : GameState) (a : Action) : Bool :=
  g.isGameActive &&
    (match g.getPlayer a.playerId with
     | some p => p.isAlive
     | none => false)

/-- `LegalityEngine._validate_timing`.  The `COMBAT_PHASE` branch evaluates
the nonexistent enum member `Phase.END_COMBAT`; the resulting
`AttributeError` is swallowed by `is_action_legal`'s handler, which returns
`False` — observably the same as this branch answering `false`. -/
def validateTiming (g : GameState) (a : Action) : Bool :=
  match a.timing with
  | .main_phase =>
      g.current_phase == some .first_main || g.current_phase == some .second_main
  | .combat_phase => false
  | .declare_attackers => g.current_phase == some .declare_attackers
  | .declare_blockers => g.current_phase == some .declare_blockers
  | .combat_damage => g.current_phase == some .combat_damage
  | _ => true

/-- `LegalityEngine._validate_play_land`. -/
def validatePlayLand (g : GameState) (pid : Int) (card : CardInfo) : Bool :=
  match g.getPlayer pid with
  | none => false
  | some player =>
      player.canPlayLand && (player.hand.getCard card.instance_id).isSome &&
        card.card_types.contains CardType.land

/-- `LegalityEngine._validate_cast_spell`. -/
def validateCastSpell (g : GameState) (pid : Int) (spell : CardInfo) : Bool :=
  match g.getPlayer pid with
  | none => false
  | some player =>
      (player.hand.getCard spell.instance_id).isSome &&
        canPayManaCostSimple spell.mana_cost player

/-- `LegalityEngine._validate_activate_ability`. -/
def validateActivateAbility (g : GameState) (pid : Int) (source : CardInfo)
    (ability : String) : Bool :=
  match g.getPlayer pid with
  | none => false
  | some player =>
      (player.battlefield.getCard source.instance_id).isSome &&
        player.canUseAbility ability

/-- `LegalityEngine._validate_declare_attackers`. -/
def validateDeclareAttackers (g : GameState) (pid : Int)
    (attackers : List CardInfo) : Bool :=
  match g.getPlayer pid with
  | none => false
  | some player =>
      g.active_player == some pid && player.canAttack &&
        attackers.all (fun atk =>
          (player.battlefield.getCard atk.instance_id).isSome)

/-- `LegalityEngine._validate_declare_blockers`. -/
def validateDeclareBlockers (g : GameState) (pid : Int)
    (blocks : List (Int × List Int)) : Bool :=
  match g.getPlayer pid with
  | none => false
  | some player =>
      !(g.active_player == some pid) &&
        blocks.all (fun b => b.2.all (fun blk =>
          (player.battlefield.getCard blk).isSome))

/-- `LegalityEngine._validate_action_type`: dispatch on the action kind;
kinds without a specific validator pass. -/
def validateActionType (g : GameState) : Action → Bool
  | .playLand pid card _ => validatePlayLand g pid card
  | .castSpell pid spell _ => validateCastSpell g pid spell
  | .activateAbility pid source ability =>
      validateActivateAbility g pid source ability
  | .declareAttackers pid attackers => validateDeclareAttackers g pid attackers
  | .declareBlockers pid blocks => validateDeclareBlockers g pid blocks
  | _ => true

/-- `LegalityEngine._validate_resources`: only `CastSpellAction` has a
`mana_cost` attribute, checked with the simplified payability test when
nonempty. -/
def validateResources (g : GameState) (a : Action) : Bool :=
  match g.getPlayer a.playerId with
  | none => false
  | some player =>
      match a with
      | .castSpell _ _ mana_cost =>
          if mana_cost != "" then canPayManaCostSimple mana_cost player
          else true
      | _ => true

/-- `LegalityEngine.is_action_legal`: the validation stages in order.
(`_validate_targets` always passes: the per-target check `_is_valid_target`
is a permissive stub.) -/
def isActionLegal (g : GameState) (a : Action) : Bool :=
  validateBasicRequirements g a && validateTiming g a &&
    validateActionType g a && validateResources g a

/-- `LegalityEngine._generate_legal_actions`: phase-specific candidates plus
the always-available ones, filtered through `is_action_legal`.  The
`AttributeError` the main-phase branch can raise propagates to this method's
`except` handler, which returns the empty list.  (The cache in
`get_legal_actions` is bypassed on `force_refresh` and is not modelled.) -/
def generateLegalActions (g : GameState) (pid : Int) : List Action :=
  match g.getPlayer pid with
  | none => []
  | some player =>
      let isActive := g.active_player == some pid
      let phaseCands : Option (List Action) :=
        if g.current_phase == some .first_main ||
            g.current_phase == some .second_main then
          generateMainPhaseActions player isActive
        else if g.current_phase == some .combat_begin then
          some (generateCombatPhaseActions player isActive)
        else if g.current_phase == some .declare_attackers then
          some (generateCombatPhaseActions player isActive)
        else if g.current_phase == some .declare_blockers then
          some (generateBlockActions player isActive)
        else if g.current_phase == some .combat_damage then
          some (generateDamageActions player)
        else some []
      match phaseCands with
      | none => []
      | some cands =>
          (cands ++ generateAlwaysAvailableActions player).filter
            (isActionLegal g)

end LegalityEngine

/-! ## Auxiliary definitions used by the theorems -/

/-- A cost symbol matching some branch of the parser's `if`/`elif` chain;
symbols with `recognizedSymbol` false fall through `ManaCost.parseSymbol`
unchanged. -/
def recognizedSymbol (sym : List Char) : Bool :=
  decide (sym = ['W']) || decide (sym = ['U']) || decide (sym = ['B']) ||
  decide (sym = ['R']) || decide (sym = ['G']) || decide (sym = ['C']) ||
  isDigits sym || sym.contains '/' || sym.contains 'P' ||
  sym.contains 'S' || sym.contains 'E' || sym.contains 'L'

/-- An action of the play-land kind. -/
def isPlayLandAction : Action → Bool
  | .playLand .. => true
  | _ => false

/-- A player whose only non-default state is the mana pool. -/
def mkPoolPlayer (mp : ManaPool) : PlayerState :=
  { player_id := 1, player_type := .self, mana_pool := mp }

/-- A player rich in every payment resource, for probing snow payability. -/
def richPlayer : PlayerState :=
  { player_id := 1, player_type := .self, life_total := 20,
    energy_counters := 10,
    mana_pool := { white := 9, blue := 9, black := 9, red := 9, green := 9,
                   colorless := 9 } }

/-- A two-player game sitting in a given phase with player 1 active and
holding priority. -/
def gameInPhase (ph : Phase) : GameState :=
  { GameState.initializeGame 1 2 with
    current_phase := some ph, active_player := some 1,
    priority_player := some 1 }

/-- A planeswalker card whose printed data is a legendary card (the
program's `CardInfo` carries no type line for any restriction to read). -/
def gideonA : CardInfo :=
  { instance_id := 20, grp_id := 200, name := "Gideon", controller := 1,
    zone_id := 1, card_types := [.planeswalker] }

/-- A second copy (fresh instance id) of the same legendary card. -/
def gideonB : CardInfo :=
  { gideonA with instance_id := 21 }

/-- Event trace: from an initialized game, player 1 draws and plays two
copies of the same legendary card, entirely through `process_event`. -/
def duplicateLegendTrace : GameState :=
  ((((GameState.initializeGame 1 2).processEvent
      (.draw_card 1 gideonA)).processEvent
      (.play_card 1 gideonA)).processEvent
      (.draw_card 1 gideonB)).processEvent
      (.play_card 1 gideonB)

/-- A basic land card. -/
def plainsCard : CardInfo :=
  { instance_id := 10, grp_id := 100, name := "Plains", controller := 1,
    zone_id := 1, card_types := [.land] }

/-- A second land card. -/
def forestCard : CardInfo :=
  { instance_id := 12, grp_id := 100, name := "Forest", controller := 1,
    zone_id := 1, card_types := [.land] }

/-- A creature spell card. -/
def bearCard : CardInfo :=
  { instance_id := 11, grp_id := 101, name := "Bear", controller := 1,
    zone_id := 1, card_types := [.creature], mana_cost := "{1}{G}" }

/-- The active player of the first-main-phase scenario: two lands and a
spell in hand, mana available, no land played yet. -/
def mainPhasePlayer : PlayerState :=
  { player_id := 1, player_type := .self,
    hand := { cards := [plainsCard, bearCard, forestCard] },
    mana_pool := { green := 2, colorless := 2 } }

/-- The first-main-phase scenario game state. -/
def mainPhaseGame : GameState :=
  { GameState.initializeGame 1 2 with
    current_phase := some .first_main, active_player := some 1,
    self_player := some mainPhasePlayer }

/-- The same active player after having played a land this turn. -/
def mainPhasePlayerFlagged : PlayerState :=
  { mainPhasePlayer with has_played_land_this_turn := true }

/-- The first-main-phase scenario with the land flag already set. -/
def mainPhaseGameFlagged : GameState :=
  { mainPhaseGame with self_player := some mainPhasePlayerFlagged }

/-! ## Theorems -/

/-- A symbol recognized by no branch of the parser's chain leaves the cost
unchanged. -/
theorem parseSymbol_unrecognized (mc : ManaCost) (sym : List Char)
    (h : recognizedSymbol sym = false) : mc.parseSymbol sym = mc := by
  simp only [recognizedSymbol, Bool.or_eq_false_iff,
    decide_eq_false_iff_not] at h
  obtain ⟨⟨⟨⟨⟨⟨⟨⟨⟨⟨⟨hW, hU⟩, hB⟩, hR⟩, hG⟩, hC⟩, hD⟩, hSl⟩, hP⟩, hS⟩, hE⟩,
    hL⟩ := h
  simp at hSl hP hS hE hL
  simp [ManaCost.parseSymbol, hW, hU, hB, hR, hG, hC, hD, hSl, hP, hS, hE, hL]

/-- Membership in the pass set after a `set.add`. -/
theorem mem_insertPass (x c : Int) (s : List Int) :
    x ∈ TimingRules.insertPass c s ↔ x = c ∨ x ∈ s := by
  unfold TimingRules.insertPass
  split
  · rename_i h
    simp at h
    constructor
    · exact fun hx => Or.inr hx
    · rintro (rfl | hx)
      · exact h
      · exact hx
  · simp [or_comm]

/-- Rotating priority never touches the phase. -/
theorem moveToNextPlayer_phase (g : GameState) :
    (TimingRules.moveToNextPlayer g).current_phase = g.current_phase := by
  cases h : (TimingRules.registeredIds g).isEmpty <;>
    simp [TimingRules.moveToNextPlayer, h]

/-- C1 (status: code_bug).  The claim states that `pay_cost` is atomic: it
either debits the parsed cost exactly and returns `True`, or returns `False`
with the pool (and life, energy) unchanged — in particular for hybrid costs
whose options draw on the same counter.  The code violates this:
`_can_pay_hybrid_mana` checks each hybrid symbol independently, so with pool
`{white: 1}` the cost `"{W/U}{W/U}"` passes the pre-payment check, and
`_pay_hybrid_mana` then debits the single white mana for the first symbol,
fails on the second, and returns `False` leaving the pool partially debited
(white 1 → 0). -/
theorem C1_hybrid_partial_debit :
    ManaSystem.canPayCost "{W/U}{W/U}" (mkPoolPlayer { white := 1 }) = true ∧
    (ManaSystem.payCost "{W/U}{W/U}" (mkPoolPlayer { white := 1 })).1 =
      false ∧
    (ManaSystem.payCost "{W/U}{W/U}" (mkPoolPlayer { white := 1 })).2 =
      mkPoolPlayer { white := 0 } ∧
    mkPoolPlayer { white := 1 } ≠ mkPoolPlayer { white := 0 } := by
  refine ⟨by decide, by decide, by decide, by decide⟩

/-- C2 (status: code_bug).  The claim states that a double pass advances the
phase one step along the full cycle, with cleanup rolling over to a new
turn.  In the code, the branches of `_advance_phase` from `COMBAT_DAMAGE`
onward evaluate the nonexistent enum member `Phase.END_COMBAT`
(the `Phase` enum names that member `COMBAT_END`); the raised
`AttributeError` is swallowed, so a double pass at `combat_damage` clears
the pass set but leaves the phase (and the turn number) unchanged, while the
same double pass at `untap` does advance to `upkeep`. -/
theorem C2_stuck_from_combat_damage :
    (TimingRules.passPriority (TimingRules.passPriority
        { game := gameInPhase .combat_damage } 1) 2).game.current_phase =
      some .combat_damage ∧
    (TimingRules.passPriority (TimingRules.passPriority
        { game := gameInPhase .combat_damage } 1) 2).priority_passed = [] ∧
    (TimingRules.passPriority (TimingRules.passPriority
        { game := gameInPhase .combat_damage } 1) 2).game.turn_number = 0 ∧
    (TimingRules.passPriority (TimingRules.passPriority
        { game := gameInPhase .untap } 1) 2).game.current_phase =
      some .upkeep := by
  refine ⟨by decide, by decide, by decide, by decide⟩

/-- C3 (status: confirmed).  With two distinct registered players, a pass by
the priority holder while the other player is not yet in the pass set never
advances the phase and never clears the pass set: the caller is added to the
set and priority rotates to the other registered player. -/
theorem C3_single_pass_no_advance (g : GameState) (passed : List Int)
    (p q h c : Int) (sp op : PlayerState)
    (hsp : g.self_player = some sp) (hop : g.opponent_player = some op)
    (hpid : sp.player_id = p) (hqid : op.player_id = q)
    (hne : p ≠ q)
    (hpr : g.priority_player = some h)
    (hh : h = p ∨ h = q)
    (hc : c = p ∨ c = q)
    (hother : (if c = p then q else p) ∉ passed) :
    (TimingRules.passPriority { game := g, priority_passed := passed }
        c).game.current_phase = g.current_phase ∧
    (TimingRules.passPriority { game := g, priority_passed := passed }
        c).priority_passed = TimingRules.insertPass c passed ∧
    (TimingRules.passPriority { game := g, priority_passed := passed }
        c).game.priority_player = some (if h = p then q else p) := by
  have hreg : TimingRules.registeredIds g = [p, q] := by
    simp [TimingRules.registeredIds, hsp, hop, hpid, hqid]
  have hoth : ¬((if c = p then q else p) ∈ TimingRules.insertPass c passed) := by
    rw [mem_insertPass]
    rintro (heq | hmem)
    · rcases hc with rfl | rfl
      · rw [if_pos rfl] at heq
        exact hne heq.symm
      · rw [if_neg (fun hcp => hne hcp.symm)] at heq
        exact hne heq
    · exact hother hmem
  have hall : TimingRules.allPlayersPassed g
      (TimingRules.insertPass c passed) = false := by
    unfold TimingRules.allPlayersPassed
    rw [hreg]
    simp only [List.all_cons, List.all_nil, Bool.and_true,
      Bool.and_eq_false_iff]
    rcases hc with rfl | rfl
    · right
      rw [if_pos rfl] at hoth
      simpa using hoth
    · left
      rw [if_neg (fun hcp => hne hcp.symm)] at hoth
      simpa using hoth
  have hbranch : TimingRules.passPriority
      { game := g, priority_passed := passed } c =
      { game := TimingRules.moveToNextPlayer g,
        priority_passed := TimingRules.insertPass c passed } := by
    unfold TimingRules.passPriority
    dsimp only
    rw [hall]
    rfl
  have hmove : (TimingRules.moveToNextPlayer g).priority_player =
      some (if h = p then q else p) := by
    unfold TimingRules.moveToNextPlayer
    rw [hreg, hpr]
    rcases hh with rfl | rfl
    · simp [List.indexOf_cons_self]
    · simp [List.indexOf_cons_ne _ hne, List.indexOf_cons_self,
        Ne.symm hne]
  rw [hbranch]
  exact ⟨moveToNextPlayer_phase g, rfl, hmove⟩

/-- Witness for C3: player 1 (active, priority holder) passes alone from the
first main phase of a fresh two-player game; the phase stays, the pass set
becomes `{1}`, and priority rotates to player 2. -/
theorem C3_single_pass_no_advance_witness :
    (TimingRules.passPriority { game := gameInPhase .first_main } 1
      ).game.current_phase = some .first_main ∧
    (TimingRules.passPriority { game := gameInPhase .first_main } 1
      ).priority_passed = [1] ∧
    (TimingRules.passPriority { game := gameInPhase .first_main } 1
      ).game.priority_player = some 2 := by
  have h := C3_single_pass_no_advance (gameInPhase .first_main) [] 1 2 1 1
    _ _ rfl rfl rfl rfl (by decide) rfl (Or.inl rfl) (Or.inl rfl) (by decide)
  exact ⟨h.1.trans (by decide), h.2.1.trans (by decide),
    h.2.2.trans (by decide)⟩

/-- C5 (status: code_bug).  The claim states that no reachable state has a
player controlling two same-named legendary permanents, with the legend
rule rejecting the second copy.  In the code, nothing can enforce it:
`_process_play_card` applies a `PLAY_CARD` event with no restriction check,
so drawing and playing two copies of the same (legendary) card through
`process_event` alone puts both on the battlefield; and the restriction
engine itself is broken — `_is_legendary` reads the undeclared
`CardInfo.type_line`, so `can_play_card` swallows the `AttributeError` and
returns False on every input, contradicting the repository's own
`test_can_play_legendary`, which asserts the first copy playable. -/
theorem C5_legend_rule_unenforced :
    (duplicateLegendTrace.getPlayer 1).map (fun p =>
        (p.battlefield.getAllCards.filter
          (fun c => c.name == "Gideon")).length) = some 2 ∧
    (duplicateLegendTrace.getPlayer 1).map
        (fun p => p.battlefield.planeswalkers.length) = some 2 ∧
    ∀ (g : GameState) (card : CardInfo) (player : PlayerState),
      CardRestrictionEngine.canPlayCard g card player = false := by
  refine ⟨by decide, by decide, fun g card player => ?_⟩
  unfold CardRestrictionEngine.canPlayCard
  cases hb : CardRestrictionEngine.checkBasicRestrictions card player <;>
    simp [CardRestrictionEngine.checkCardSpecificRestrictions, hb]

/-- C4 counterexample (claim as stated is false).  The claim requires a
parse error for a bracketed symbol outside the grammar, such as `"{X}"` or
`"{T}"`.  `_parse_cost` has no error path at all: an unrecognized symbol
matches no branch of its chain and is silently dropped, so these
expressions parse to the same zero cost as the empty expression. -/
theorem C4_counterexample :
    ManaCost.parse "{X}" = ManaCost.parse "" ∧
    ManaCost.parse "{T}" = ManaCost.parse "" := by
  refine ⟨by decide, by decide⟩

/-- C4 (status: corrected).  Parsing is total and deterministic and the
total cost is the sum of all component counts (colored pips, generic,
hybrid count, Phyrexian count, snow), but a bracketed symbol that is not a
recognized symbol of the grammar is silently ignored — it contributes
nothing to the parsed cost — rather than reported as a parse error. -/
theorem C4_unrecognized_symbols_ignored (s : String)
    (pre post : List (List Char)) (u : List Char)
    (hu : recognizedSymbol u = false) :
    (ManaCost.parse s).getTotalCost =
      (ManaCost.parse s).white + (ManaCost.parse s).blue +
      (ManaCost.parse s).black + (ManaCost.parse s).red +
      (ManaCost.parse s).green + (ManaCost.parse s).colorless +
      (ManaCost.parse s).generic + (ManaCost.parse s).hybrid.length +
      (ManaCost.parse s).phyrexian.length + (ManaCost.parse s).snow ∧
    ManaCost.parseSymbols (pre ++ u :: post) =
      ManaCost.parseSymbols (pre ++ post) := by
  constructor
  · rfl
  · unfold ManaCost.parseSymbols
    rw [List.foldl_append, List.foldl_append, List.foldl_cons,
      parseSymbol_unrecognized _ u hu]

/-- Witness for C4: instantiates the theorem at the unrecognized symbol `X`
between a `W` pip and a `2`. -/
theorem C4_unrecognized_symbols_ignored_witness :
    recognizedSymbol ['X'] = false ∧
    ManaCost.parseSymbols [['W'], ['X'], ['2']] =
      ManaCost.parseSymbols [['W'], ['2']] := by
  refine ⟨by decide, ?_⟩
  exact (C4_unrecognized_symbols_ignored "" [['W']] [['2']] ['X']
    (by decide)).2

/-- C6 counterexample (claim as stated is false).  The claim requires that
the active player, once recorded in the pass set, no longer has priority.
`_player_has_priority` returns `True` for the active player before ever
consulting the pass set, so an active player who has passed is still
reported as having priority. -/
theorem C6_counterexample :
    TimingRules.playerHasPriority
      { game := { GameState.initializeGame 1 2 with active_player := some 1 },
        priority_passed := [1] } 1 = true := by
  decide

/-- C6 (status: corrected).  `_player_has_priority(player)` is true exactly
when the player is the active player, or is the recorded priority player
(both regardless of the pass set), or otherwise is not in the current pass
set. -/
theorem C6_has_priority_characterization (tr : TimingRules) (pid : Int) :
    TimingRules.playerHasPriority tr pid =
      (tr.game.active_player == some pid ||
        tr.game.priority_player == some pid ||
        !(tr.priority_passed.contains pid)) := by
  cases h1 : tr.game.active_player == some pid <;>
    cases h2 : tr.game.priority_player == some pid <;>
      cases h3 : tr.priority_passed.contains pid <;>
        simp [TimingRules.playerHasPriority, h1, h2, h3] <;>
          simpa using h3

/-- C7 counterexample (claim as stated is false).  The claim says a cost
whose only unmet component is snow is still payable.  The code's snow check
is `cost.snow == 0`, so the cost `"{S}"` (snow 1) is rejected by
`can_pay_cost` and `pay_cost` even for a player rich in every resource. -/
theorem C7_counterexample :
    (ManaCost.parse "{S}").snow = 1 ∧
    ManaSystem.canPayCost "{S}" richPlayer = false ∧
    (ManaSystem.payCost "{S}" richPlayer).1 = false := by
  refine ⟨by decide, by decide, by decide⟩

/-- C7 (status: corrected).  The snow component is satisfied only when it is
zero: `_can_pay_snow_mana` and `_pay_snow_mana` both test `cost.snow == 0`
independently of the player's state, so every cost with a positive snow
count fails both payability checking and payment, for every player, leaving
the player unchanged. -/
theorem C7_snow_never_payable (s : String) (p : PlayerState)
    (h : (ManaCost.parse s).snow > 0) :
    ManaSystem.canPayCost s p = false ∧
    ManaSystem.payCost s p = (false, p) := by
  have hs : s ≠ "" := by
    intro he
    rw [he] at h
    simp [ManaCost.parse] at h
  have hsnow : ManaSystem.canPaySnowMana (ManaCost.parse s) p = false := by
    simp only [ManaSystem.canPaySnowMana, beq_eq_false_iff_ne, ne_eq]
    omega
  have hcan : ManaSystem.canPayManaCost (ManaCost.parse s) p = false := by
    simp [ManaSystem.canPayManaCost, hsnow]
  constructor
  · simp [ManaSystem.canPayCost, hs, hcan]
  · simp [ManaSystem.payCost, hs, hcan]

/-- Witness for C7: instantiates the theorem at cost string `"{S}"` and the
resource-rich player. -/
theorem C7_snow_never_payable_witness :
    (ManaCost.parse "{S}").snow > 0 ∧
    ManaSystem.canPayCost "{S}" richPlayer = false ∧
    ManaSystem.payCost "{S}" richPlayer = (false, richPlayer) := by
  refine ⟨by decide, ?_, ?_⟩
  · exact (C7_snow_never_payable "{S}" richPlayer (by decide)).1
  · exact (C7_snow_never_payable "{S}" richPlayer (by decide)).2

/-- C8 (status: confirmed).  Generic pips are debited greedily from the
pool's non-zero counters in the fixed precedence order white, blue, black,
red, green, colorless: from a full pool a generic pip takes the white mana;
with white empty it takes blue, and so on down to colorless.  Consequently
the cost `"{2}{W}{W}"` (total cost 4) against pool `{white: 2, colorless: 2}`
is payable and payment succeeds leaving `{white: 0, colorless: 0}`. -/
theorem C8_generic_precedence :
    ManaSystem.canPayCost "{2}{W}{W}"
      (mkPoolPlayer { white := 2, colorless := 2 }) = true ∧
    (ManaCost.parse "{2}{W}{W}").getTotalCost = 4 ∧
    ManaSystem.payCost "{2}{W}{W}"
        (mkPoolPlayer { white := 2, colorless := 2 }) =
      (true, mkPoolPlayer { white := 0, colorless := 0 }) ∧
    (ManaSystem.payCost "{1}" (mkPoolPlayer
        { white := 1, blue := 1, black := 1, red := 1, green := 1,
          colorless := 1 })).2.mana_pool =
      { white := 0, blue := 1, black := 1, red := 1, green := 1,
        colorless := 1 } ∧
    (ManaSystem.payCost "{1}" (mkPoolPlayer
        { blue := 1, black := 1, red := 1, green := 1,
          colorless := 1 })).2.mana_pool =
      { blue := 0, black := 1, red := 1, green := 1, colorless := 1 } ∧
    (ManaSystem.payCost "{1}" (mkPoolPlayer
        { black := 1, red := 1, green := 1, colorless := 1 })).2.mana_pool =
      { black := 0, red := 1, green := 1, colorless := 1 } ∧
    (ManaSystem.payCost "{1}" (mkPoolPlayer
        { red := 1, green := 1, colorless := 1 })).2.mana_pool =
      { red := 0, green := 1, colorless := 1 } ∧
    (ManaSystem.payCost "{1}" (mkPoolPlayer
        { green := 1, colorless := 1 })).2.mana_pool =
      { green := 0, colorless := 1 } ∧
    (ManaSystem.payCost "{1}" (mkPoolPlayer { colorless := 1 })).2.mana_pool =
      { colorless := 0 } := by
  refine ⟨by decide, by decide, by decide, by decide, by decide, by decide,
    by decide, by decide, by decide⟩

/-- C9 (status: code_bug).  The claim states that in an active FirstMain
game whose active player is alive with `has_played_land_this_turn` false,
the legal-action set contains exactly one play-land action per land in
hand.  In the code, building the first play-land candidate calls
`_get_land_type`, whose read of the undeclared `CardInfo.type_line` raises
`AttributeError`; `_generate_legal_actions` swallows it and returns the
empty list — so with a land in hand the set is empty (not even pass or
concede) instead of holding the play-land actions.  With the flag set the
land loop is skipped, generation proceeds (a nonempty set with zero
play-land actions), and `_validate_play_land` rejects a play-land action,
as the claim's latter parts say. -/
theorem C9_generation_aborts :
    mainPhasePlayer.has_played_land_this_turn = false ∧
    mainPhasePlayer.hand.cards.any (fun c =>
      c.card_types.contains CardType.land) = true ∧
    LegalityEngine.generateLegalActions mainPhaseGame 1 = [] ∧
    (LegalityEngine.generateLegalActions mainPhaseGameFlagged 1).filter
      isPlayLandAction = [] ∧
    LegalityEngine.generateLegalActions mainPhaseGameFlagged 1 ≠ [] ∧
    LegalityEngine.isActionLegal mainPhaseGameFlagged
      (Action.playLand 1 plainsCard "basic") = false := by
  refine ⟨by decide, by decide, by decide, by decide, by decide, by decide⟩

/-- C10 (status: confirmed).  `take_damage(amount)` with positive `amount`
sets `life_total` to `max(0, life - amount)` (hence never drives it
negative) and returns `min(amount, life)`; with `amount ≤ 0` it returns 0
and leaves the player unchanged; after positive damage the player is dead
(`is_alive()` false) exactly when the resulting life total is 0. -/
theorem C10_take_damage (p : PlayerState) (amount : Int) :
    (amount > 0 →
      (p.takeDamage amount).1 =
          { p with life_total := max 0 (p.life_total - amount) } ∧
        (p.takeDamage amount).2 = min amount p.life_total ∧
        (p.takeDamage amount).1.life_total ≥ 0) ∧
    (amount ≤ 0 → p.takeDamage amount = (p, 0)) ∧
    (amount > 0 →
      ((p.takeDamage amount).1.isAlive = false ↔
        (p.takeDamage amount).1.life_total = 0)) := by
  refine ⟨fun hpos => ?_, fun hneg => ?_, fun hpos => ?_⟩
  · rw [PlayerState.takeDamage, if_neg (by omega)]
    exact ⟨rfl, rfl, le_max_left 0 _⟩
  · rw [PlayerState.takeDamage, if_pos hneg]
  · rw [PlayerState.takeDamage, if_neg (by omega)]
    simp only [PlayerState.isAlive, decide_eq_false_iff_not, not_lt]
    omega

/-- Witness for C10: a 20-life player taking 25 damage drops to exactly 0
life, is dealt 20, and is no longer alive; non-positive damage leaves the
player untouched. -/
theorem C10_take_damage_witness :
    ((mkPoolPlayer {}).takeDamage 25).1.life_total = 0 ∧
    ((mkPoolPlayer {}).takeDamage 25).2 = 20 ∧
    ((mkPoolPlayer {}).takeDamage 25).1.isAlive = false ∧
    (mkPoolPlayer {}).takeDamage 0 = (mkPoolPlayer {}, 0) := by
  have h := C10_take_damage (mkPoolPlayer {}) 25
  have h1 := h.1 (by norm_num)
  refine ⟨?_, ?_, ?_,
    (C10_take_damage (mkPoolPlayer {}) 0).2.1 (by norm_num)⟩
  · rw [h1.1]; decide
  · rw [h1.2.1]; decide
  · exact (h.2.2 (by norm_num)).mpr (by rw [h1.1]; decide)

end Mtga
